import Mathlib

/-!
Verification of the resumable two-phase Reddit crawler (src/crawler.py)
against its natural-language specification.

The development shallowly embeds the checkpointing, URL-collection,
detail-fetch, comment-parsing and challenge-detection logic of
RedditCrawler as executable Lean definitions and proves (or refutes)
the spec's claims about them.
-/

namespace Crawler

/-- An entry of collected_urls_with_source: crawler.py appends
dicts {"url": post_url, "created_utc": created_utc} (lines 533-536). -/
structure UrlEntry where
  url : String
  created_utc : Nat
deriving DecidableEq, Repr

/-- An item of a Pullpush search-API page, as consumed by
collect_post_urls: post.get("id"), post.get("permalink"),
post.get("created_utc") (lines 521-523); a missing key yields none. -/
structure ApiPost where
  id : Option String
  permalink : Option String
  created_utc : Option Nat
deriving DecidableEq, Repr

/-- Character class of the regex [a-zA-Z0-9] used by _extract_post_id. -/
def isAlnum (c : Char) : Bool := c.isAlpha || c.isDigit

/-- Strips a literal pattern from the front of a character list,
returning the remainder on success. -/
def dropPre : List Char → List Char → Option (List Char)
  | [], l => some l
  | _, [] => none
  | p :: ps, c :: cs => if p = c then dropPre ps cs else none

/-- Attempts the regex /comments/([a-zA-Z0-9]+)/ at one position:
the literal, then a nonempty maximal alphanumeric run, then a slash. -/
def tryAt (l : List Char) : Option (List Char) :=
  match dropPre "/comments/".toList l with
  | none => none
  | some rest =>
    let run := rest.takeWhile isAlnum
    let after := rest.dropWhile isAlnum
    if run ≠ [] ∧ after.head? = some '/' then some run else none

/-- Leftmost-match scan of re.search for /comments/([a-zA-Z0-9]+)/. -/
def extractFrom : List Char → Option (List Char)
  | [] => none
  | c :: cs =>
    match tryAt (c :: cs) with
    | some r => some r
    | none => extractFrom cs

/-- Embeds RedditCrawler._extract_post_id (crawler.py lines 711-714):
re.search of /comments/([a-zA-Z0-9]+)/ over the URL, returning the
captured group, or none when there is no match. -/
def extract_post_id (s : String) : Option String :=
  (extractFrom s.toList).map (fun l => String.mk l)

/-- Embeds the per-item body of the page loop in collect_post_urls
(crawler.py lines 516-538).  State is (collected_urls, collected_post_ids);
the id set is represented as a duplicate-free list.  An item is skipped
when the length cap is reached, when any of id/permalink/created_utc is
missing or falsy, or when its id is already in the dedup set; otherwise
the Reddit URL is appended and the id marked. -/
def processPost (max_posts : Nat) (st : List UrlEntry × List String)
    (post : ApiPost) : List UrlEntry × List String :=
  match post with
  | ⟨some pid, some pl, some ts⟩ =>
    if max_posts ≤ st.1.length then st
    else if pid = "" ∨ pl = "" ∨ ts = 0 then st
    else if pid ∈ st.2 then st
    else (st.1 ++ [⟨"https://www.reddit.com" ++ pl, ts⟩], st.2 ++ [pid])
  | _ => st

/-- Processing of one whole API page of collect_post_urls. -/
def processPage (max_posts : Nat) (st : List UrlEntry × List String)
    (posts : List ApiPost) : List UrlEntry × List String :=
  posts.foldl (processPost max_posts) st

/-- Embeds the collected_post_ids computation of
save_url_collection_progress (crawler.py lines 311-323): the persisted
id set is re-derived from the collected URLs via _extract_post_id,
dropping entries with no extractable id. -/
def persistedIds (collected_urls : List UrlEntry) : List String :=
  (collected_urls.filterMap (fun u => extract_post_id u.url)).dedup

/-- Embeds the fresh-start id seeding of collect_post_urls
(crawler.py lines 468-473): when no collection progress is given the
dedup set is built by extracting an id from every already-collected URL. -/
def seedIds (collected_urls : List UrlEntry) : List String :=
  collected_urls.foldl
    (fun s u =>
      match extract_post_id u.url with
      | some i => if i ∈ s then s else s ++ [i]
      | none => s) []

/-- The url_collection_progress sub-document written by
save_url_collection_progress (crawler.py lines 325-333). -/
structure CollectionProgress where
  collected_count : Nat
  target_count : Nat
  latest_post_timestamp : Nat
  before_timestamp : Nat
  collected_post_ids : List String
  is_collection_complete : Bool
deriving DecidableEq, Repr

/-- The checkpoint document written by save_progress
(crawler.py lines 281-296); last_updated is omitted as no claim
concerns wall-clock time. -/
structure StateData where
  current_post_index : Nat
  collected_urls_with_source : List UrlEntry
  total_collected : Nat
  total_crawled_count : Nat
  subreddit_name : String
  max_posts : Nat
  url_collection_progress : Option CollectionProgress
  is_collection_complete : Bool
deriving DecidableEq, Repr

/-- Embeds RedditCrawler.save_progress (crawler.py lines 278-299) as the
checkpoint document it writes. -/
def save_progress (subreddit_name : String) (max_posts total_crawled : Nat)
    (current_index : Nat) (url_list : List UrlEntry)
    (is_collection_complete : Bool)
    (collection_progress : Option CollectionProgress) : StateData :=
  ⟨current_index, url_list, url_list.length, total_crawled, subreddit_name,
    max_posts, collection_progress, is_collection_complete⟩

/-- Embeds RedditCrawler.save_url_collection_progress
(crawler.py lines 304-337): derives latest/persisted fields from the
collected URLs and delegates to save_progress with index 1. -/
def save_url_collection_progress (subreddit_name : String)
    (max_posts total_crawled : Nat) (collected_urls : List UrlEntry)
    (before_timestamp : Nat) (target_count : Nat) : StateData :=
  let latest :=
    match collected_urls.getLast? with
    | some u => u.created_utc
    | none => before_timestamp
  let ids := if collected_urls = [] then [] else persistedIds collected_urls
  let complete := target_count ≤ collected_urls.length
  save_progress subreddit_name max_posts total_crawled 1 collected_urls complete
    (some ⟨collected_urls.length, target_count, latest, before_timestamp, ids, complete⟩)

/-- Embeds RedditCrawler.load_progress (crawler.py lines 365-399).
Input none models an absent state file.  Completeness is recomputed as
len(url_list) >= self.max_posts; the stored is_collection_complete flag
is not read.  A missing url_collection_progress in the incomplete branch
raises ValueError, which the surrounding except swallows, yielding the
fresh-start default (1, [], False, {}). -/
def load_progress (st : Option StateData) (max_posts : Nat) :
    Nat × List UrlEntry × Bool × Option CollectionProgress :=
  match st with
  | none => (1, [], false, none)
  | some s =>
    let current_index := s.current_post_index
    let url_list := s.collected_urls_with_source
    let cp := s.url_collection_progress
    let is_collection_complete : Bool := max_posts ≤ url_list.length
    if is_collection_complete ∧ current_index ≤ url_list.length then
      (current_index, url_list, true, cp)
    else if ¬ is_collection_complete then
      match cp with
      | some p => (1, url_list, false, some p)
      | none => (1, [], false, none)
    else
      (1, url_list, true, cp)

/-- Embeds RedditCrawler.update_progress_index (crawler.py lines 342-363)
applied to an on-disk document: the three updated fields are rewritten,
every other field is preserved. -/
def update_progress_index (s : StateData) (total_crawled current_index : Nat) :
    StateData :=
  { s with current_post_index := current_index, total_crawled_count := total_crawled }

/-- Phase-2 fetch loop of crawl_posts (crawler.py lines 752-786), driven
by the per-candidate fetch outcomes (true = fetch_post_json returned a
record).  Arguments: nextCur is the current_index the next iteration
will assign (index+1), curVar the present value of the current_index
variable, pending the length of all_posts_data, cf the consecutive
failure counter.  Returns the list of save_data commits as
(batch size, index) pairs, the pending count at loop exit, and the final
value of current_index.  A commit is produced exactly when ten pending
records accumulate (save_data appends the batch to the output file and
then writes the index via update_progress_index); the loop breaks after
three consecutive failures. -/
def fetchLoopA : Nat → Nat → Nat → Nat → List Bool →
    List (Nat × Nat) × Nat × Nat
  | _, curVar, pending, _, [] => ([], pending, curVar)
  | nextCur, _, pending, cf, r :: rest =>
    if r then
      if (pending + 1) % 10 = 0 then
        ((pending + 1, nextCur) :: (fetchLoopA (nextCur + 1) nextCur 0 0 rest).1,
          (fetchLoopA (nextCur + 1) nextCur 0 0 rest).2)
      else
        fetchLoopA (nextCur + 1) nextCur (pending + 1) 0 rest
    else
      if 3 ≤ cf + 1 then ([], pending, nextCur)
      else fetchLoopA (nextCur + 1) nextCur pending (cf + 1) rest

/-- Complete list of save_data commits of one Phase-2 run starting at
loaded index start: the in-loop commits followed by the final flush in
the finally block of crawl_posts (lines 799-800), which runs only when
records are still pending. -/
def phase2Saves (start : Nat) (results : List Bool) : List (Nat × Nat) :=
  let q := fetchLoopA start start 0 0 results
  q.1 ++ (if q.2.1 = 0 then [] else [(q.2.1, q.2.2)])

/-- Final value of the current_index variable after the Phase-2 loop. -/
def phase2FinalCur (start : Nat) (results : List Bool) : Nat :=
  (fetchLoopA start start 0 0 results).2.2

/-- The sequence of current_post_index values written to the state file
during the Phase-2 run (each by update_progress_index, invoked from
save_data immediately after a successful output append). -/
def phase2Writes (start : Nat) (results : List Bool) : List Nat :=
  (phase2Saves start results).map Prod.snd

/-- Embeds the completed_normally test of crawl_posts (lines 789-791,
806-811): the state file is removed exactly when, at the end of the try
block, current_index has reached the length of the url list. -/
def removesStateFile (start total_posts : Nat) (results : List Bool) : Bool :=
  total_posts ≤ phase2FinalCur start results

/-- Number of loop iterations the Phase-2 loop executes on a result
trace before exhausting it or breaking at the failure ceiling. -/
def fetchIters : Nat → List Bool → Nat
  | _, [] => 0
  | _, true :: rest => 1 + fetchIters 0 rest
  | cf, false :: rest => if 3 ≤ cf + 1 then 1 else 1 + fetchIters (cf + 1) rest

/-- Event trace of a Phase-2 run from the output file's point of view:
each commit is an append of a batch to the output collection followed
immediately by the checkpoint-index write that covers it. -/
inductive Ev where
  | append (count : Nat) (upTo : Nat)
  | writeIdx (i : Nat)
deriving DecidableEq, Repr

/-- Event list of a Phase-2 run, flattening each save_data commit into
its append-then-write-index pair, in source order (crawler.py
lines 420-432: json.dump of merged output, then update_progress_index). -/
def phase2Events (start : Nat) (results : List Bool) : List Ev :=
  (phase2Saves start results).flatMap (fun s => [.append s.1 s.2, .writeIdx s.2])

/-- A trace in which every checkpoint-index write is immediately
preceded by a nonempty output append covering that same index. -/
inductive PairedTrace : List Ev → Prop where
  | nil : PairedTrace []
  | cons : ∀ (c i : Nat) (rest : List Ev), c ≠ 0 → PairedTrace rest →
      PairedTrace (.append c i :: .writeIdx i :: rest)

/-- Caller-visible outcome of one save_data call. -/
structure SaveDataOut where
  raised : Bool
  appendedCount : Nat
  indexWritten : Option Nat
  pendingAfter : Nat
  totalCrawledAfter : Nat
deriving DecidableEq, Repr

/-- Embeds RedditCrawler.update_progress_index (crawler.py lines 342-363)
from its caller's point of view: first component is whether an exception
propagates, second the index value actually written.  A missing state
file raises FileNotFoundError and a failing write raises IOError, but
both are swallowed by the function's own blanket except, which only
logs; so the call never raises. -/
def update_progress_index_run (state_file_exists write_ok : Bool)
    (idx : Nat) : Bool × Option Nat :=
  if ¬ state_file_exists then (false, none)
  else if write_ok then (false, some idx)
  else (false, none)

/-- Embeds RedditCrawler.save_data (crawler.py lines 401-435) from its
caller's point of view, with the success of the two file writes as
inputs.  When the output-file json.dump raises, the blanket except logs
and returns: nothing is appended, all_posts_data is not cleared, the
index is not advanced, and no exception reaches the caller. -/
def save_data_run (pending idx : Nat) (out_write_ok : Bool)
    (state_file_exists state_write_ok : Bool) (total_crawled : Nat) :
    SaveDataOut :=
  if pending = 0 then ⟨false, 0, none, 0, total_crawled⟩
  else if ¬ out_write_ok then ⟨false, 0, none, pending, total_crawled⟩
  else
    let u := update_progress_index_run state_file_exists state_write_ok idx
    ⟨false, pending, u.2, 0, total_crawled + pending⟩

/-- Embeds RedditCrawler.save_progress (crawler.py lines 278-302) from
its caller's point of view: whether the call raises, and whether the
document reached the disk.  A failing write raises inside the try and is
logged and swallowed by the except. -/
def save_progress_run (write_ok : Bool) (doc : StateData) :
    Bool × Option StateData :=
  if write_ok then (false, some doc) else (false, none)

/-- Content of the state file on disk, as load_progress can encounter
it: absent, a complete JSON document, or the torso left behind when the
in-place rewrite of save_progress or update_progress_index (a plain
open-for-write that truncates, with no temp file or rename) is cut off
by a crash. -/
inductive DiskFile where
  | absent
  | wholeDoc (d : StateData)
  | partialDoc (d : StateData)
deriving DecidableEq, Repr

/-- Effect on the disk of running save_progress, with a flag saying
whether the process crashes midway through the write.  The source opens
the state file with mode w, truncating it, and streams the new JSON
directly into it (crawler.py lines 298-299, 359-360), so a crash leaves
a partial document regardless of what was there before. -/
def save_progress_disk (_prev : DiskFile) (newDoc : StateData)
    (crash_mid_write : Bool) : DiskFile :=
  if crash_mid_write then .partialDoc newDoc else .wholeDoc newDoc

/-- load_progress applied to the disk: a partial document makes
json.load raise, the blanket except swallows it and the fresh-start
default is returned (crawler.py lines 396-399), exactly as for an
absent file. -/
def load_from_disk (f : DiskFile) (max_posts : Nat) :
    Nat × List UrlEntry × Bool × Option CollectionProgress :=
  match f with
  | .wholeDoc d => load_progress (some d) max_posts
  | .absent => load_progress none max_posts
  | .partialDoc _ => (1, [], false, none)

/-- Outcome of one iteration of the Pullpush request loop in
collect_post_urls, covering every except arm of crawler.py
lines 496-586: a non-200 status, a requests timeout, another requests
error, a JSON parse error, or a successful page of items. -/
inductive PageResult where
  | httpFail
  | timeout
  | reqError
  | parseError
  | ok (posts : List ApiPost)
deriving DecidableEq, Repr

/-- Embeds the while loop of collect_post_urls (crawler.py
lines 479-586) over a script of request outcomes.  State: collected
URLs, dedup id list, consecutive error counter.  A non-200 response
breaks after 3 consecutive errors; a timeout, request error, or parse
error breaks after 5; an empty successful page breaks immediately; a
nonempty page is folded through the per-item processing and resets the
counter.  Every break returns the collected list so far; nothing is
raised.  An exhausted script simply stops the model. -/
def collectLoop (max_posts : Nat) :
    List UrlEntry × List String → Nat → List PageResult → List UrlEntry
  | st, _, [] => st.1
  | st, cf, ev :: rest =>
    if max_posts ≤ st.1.length then st.1
    else
      match ev with
      | .httpFail =>
        if 3 ≤ cf + 1 then st.1 else collectLoop max_posts st (cf + 1) rest
      | .timeout =>
        if 5 ≤ cf + 1 then st.1 else collectLoop max_posts st (cf + 1) rest
      | .reqError =>
        if 5 ≤ cf + 1 then st.1 else collectLoop max_posts st (cf + 1) rest
      | .parseError =>
        if 5 ≤ cf + 1 then st.1 else collectLoop max_posts st (cf + 1) rest
      | .ok posts =>
        if posts = [] then st.1
        else collectLoop max_posts (processPage max_posts st posts) 0 rest

/-- Return value of collect_post_urls (crawler.py line 603): the
collected list truncated to max_posts. -/
def collect_post_urls_run (max_posts : Nat) (st : List UrlEntry × List String)
    (script : List PageResult) : List UrlEntry :=
  (collectLoop max_posts st 0 script).take max_posts

/-- Models _convert_time (crawler.py lines 702-709): a falsy (zero or
absent) timestamp maps to the N/A marker; a nonzero timestamp maps to
its formatted form, represented by the timestamp itself since no claim
depends on the strftime rendering. -/
inductive TimeRepr where
  | na
  | formatted (ts : Nat)
deriving DecidableEq, Repr

/-- Conversion function of _convert_time under the TimeRepr model. -/
def convert_time (ts : Nat) : TimeRepr :=
  if ts = 0 then .na else .formatted ts

mutual
/-- A raw comment node of the Reddit JSON forest as _parse_comment reads
it: comment_data.get('kind'), and the fields looked up in
comment_data.get('data', {}); a node with no data dict is one whose
field options are all none. -/
inductive CNode : Type where
  | mk : Option String → Option String → Option String → Option Int →
      Option Nat → RField → CNode
/-- The data.get("replies") field: absent, present but not a dict
(Reddit serialises the empty case as an empty string), or a dict whose
data.children forest is given (missing data/children keys behave as the
empty forest via the chained .get defaults). -/
inductive RField : Type where
  | absent : RField
  | nonDict : RField
  | listing : CForest → RField
/-- A forest of raw comment nodes. -/
inductive CForest : Type where
  | nil : CForest
  | cons : CNode → CForest → CForest
end

/-- A parsed comment as built by _parse_comment (crawler.py
lines 681-700): author, text, score, created_time, replies,
reply_count. -/
inductive Comment : Type where
  | mk : String → String → Int → TimeRepr → List Comment → Nat → Comment

/-- Reply list of a parsed comment. -/
def Comment.replies : Comment → List Comment
  | .mk _ _ _ _ rs _ => rs

/-- Stored reply_count of a parsed comment. -/
def Comment.reply_count : Comment → Nat
  | .mk _ _ _ _ _ n => n

mutual
/-- Embeds RedditCrawler._parse_comment (crawler.py lines 673-700):
a node of kind more yields none; otherwise the fields are read with
their defaults, the children of a dict-shaped replies field are parsed
recursively with none results dropped, and reply_count is set to the
length of the parsed reply list. -/
def parseComment : CNode → Option Comment
  | .mk kind author body score created replies =>
    if kind = some "more" then none
    else
      some (.mk (author.getD "[Deleted]") (body.getD "[无文本]")
        (score.getD 0) (convert_time (created.getD 0))
        (repliesChildren replies) (repliesChildren replies).length)
/-- The isinstance(replies_raw, dict) test of _parse_comment: only a
dict-shaped replies field is descended into; absent or non-dict fields
yield no children. -/
def repliesChildren : RField → List Comment
  | .listing f => parseForest f
  | .absent => []
  | .nonDict => []
/-- The child loop of _parse_comment over a forest: parse each node and
keep the non-none results in order. -/
def parseForest : CForest → List Comment
  | .nil => []
  | .cons h t =>
    match parseComment h with
    | some c => c :: parseForest t
    | none => parseForest t
end

/-- A parsed comment tree is well-counted when at every node the stored
reply_count equals the number of its reply children. -/
inductive GoodTree : Comment → Prop where
  | node : ∀ (a t : String) (s : Int) (cr : TimeRepr) (rs : List Comment)
      (n : Nat), n = rs.length → (∀ c ∈ rs, GoodTree c) →
      GoodTree (.mk a t s cr rs n)

/-- The page state _check_and_handle_captcha_or_login inspects:
whether any of its fixed captcha selectors matches a visible element,
the text of the first pre element (none when there is no pre element),
and the body text (none when the locator raises or yields nothing). -/
structure Page where
  visibleCaptchaSelector : Bool
  preText : Option String
  bodyText : Option String
deriving DecidableEq, Repr

/-- Substring test over character lists, the semantics of the Python
in operator on str. -/
def containsSubList : List Char → List Char → Bool
  | hay, needle =>
    if needle.isPrefixOf hay then true
    else
      match hay with
      | [] => false
      | _ :: t => containsSubList t needle

/-- Substring test on strings. -/
def containsSub (hay needle : String) : Bool :=
  containsSubList hay.toList needle.toList

/-- Lowercasing of page text, the semantics of str.lower for the ASCII
keywords involved. -/
def lowerStr (s : String) : String :=
  String.mk (s.toList.map Char.toLower)

/-- The keyword list of crawler.py line 158. -/
def captchaKeywords : List String :=
  ["captcha", "verification", "prove you are human", "robot check",
   "login", "sign in", "登录"]

/-- The structured-data shape test of crawler.py lines 151-153: the pre
text must contain the three key fields. -/
def hasDataShape (s : String) : Bool :=
  containsSub s "title" && containsSub s "author" && containsSub s "selftext"

/-- Keyword scan of crawler.py lines 158-163 over the lowercased body
text. -/
def keywordHit (s : String) : Bool :=
  captchaKeywords.any (fun k => containsSub (lowerStr s) k)

/-- Embeds the detection part of _check_and_handle_captcha_or_login
(crawler.py lines 114-167), returning whether the pipeline blocks for
operator intervention.  Source order: first the captcha selector scan;
only if no visible selector matched, the pre element is read — its
absence raises AttributeError, which the outer except catches so the
check ends with no block; if the pre text already has the structured
data shape the function returns with no block; otherwise the body text,
when truthy, is scanned for the keyword list. -/
def challengeDetected (p : Page) : Bool :=
  if p.visibleCaptchaSelector then true
  else
    match p.preText with
    | none => false
    | some js =>
      if hasDataShape js then false
      else
        match p.bodyText with
        | none => false
        | some bt => if bt = "" then false else keywordHit bt

/-- Modelled from the spec: the detection order claimed by §4.4 — the
structured-data shape check short-circuits first, only then the
selector scan, only then the keyword scan. -/
def challengeDetectedSpecOrder (p : Page) : Bool :=
  match p.preText with
  | some js =>
    if hasDataShape js then false
    else if p.visibleCaptchaSelector then true
    else
      match p.bodyText with
      | none => false
      | some bt => if bt = "" then false else keywordHit bt
  | none =>
    if p.visibleCaptchaSelector then true
    else
      match p.bodyText with
      | none => false
      | some bt => if bt = "" then false else keywordHit bt

/-- An API item is permalink-consistent when the Reddit URL built from
its permalink yields, under _extract_post_id, exactly the id the item
carries.  Nothing in collect_post_urls enforces this: the in-memory
dedup set stores the API id while the persisted set is re-derived from
the URL. -/
def wfPost : ApiPost → Bool
  | ⟨some pid, some pl, _⟩ =>
    decide (extract_post_id ("https://www.reddit.com" ++ pl) = some pid)
  | _ => true

/-- The state of the collector after folding a sequence of API pages,
the same per-item processing as collectLoop but with the page sequence
given directly (cursor handling fixed by the same-upstream-data
assumption). -/
def collectPages (max_posts : Nat) (st : List UrlEntry × List String)
    (pages : List (List ApiPost)) : List UrlEntry × List String :=
  pages.foldl (processPage max_posts) st

/-- The collector state a resumed run starts from (crawler.py
lines 454-465): the already-collected URLs together with the dedup set
restored from the checkpoint's collected_post_ids, which
save_url_collection_progress had derived from those URLs. -/
def resumeStateOf (urls : List UrlEntry) : List UrlEntry × List String :=
  (urls, persistedIds urls)

/-- Identifier projection of a candidate list, via the repository's own
_extract_post_id. -/
def idProjection (urls : List UrlEntry) : List String :=
  urls.filterMap (fun u => extract_post_id u.url)

/-! ## Claim C10 -/

/-- C10: load_progress decides which phase to resume by recomputing
completeness as len(stored URL list) >= the current instance's
max_posts, never consulting the stored is_collection_complete flag:
(1) flipping the stored flag never changes the result; (2) a Phase-2
checkpoint (one written by save_progress without collection progress)
reloaded under a strictly larger max_posts is sent back to Phase-1
collection (the completeness component of the result is false — and,
the stored progress sub-document being absent, the fresh-start default
is returned); (3) a checkpoint reloaded under a max_posts no larger
than the stored URL count is treated as complete and resumes Phase-2
fetching at the stored index. -/
theorem c10_load_progress_recomputes_completeness :
    (∀ (s : StateData) (b : Bool) (max_posts : Nat),
      load_progress (some { s with is_collection_complete := b }) max_posts =
        load_progress (some s) max_posts) ∧
    (∀ (s : StateData) (max_posts : Nat),
      s.url_collection_progress = none →
      s.collected_urls_with_source.length < max_posts →
      load_progress (some s) max_posts = (1, [], false, none)) ∧
    (∀ (s : StateData) (max_posts : Nat),
      max_posts ≤ s.collected_urls_with_source.length →
      s.current_post_index ≤ s.collected_urls_with_source.length →
      load_progress (some s) max_posts =
        (s.current_post_index, s.collected_urls_with_source, true,
          s.url_collection_progress)) := by
  refine ⟨?_, ?_, ?_⟩
  · intro s b max_posts
    simp [load_progress]
  · intro s max_posts hcp hlen
    simp [load_progress, hcp, Nat.not_le_of_lt hlen]
  · intro s max_posts hmax hidx
    simp [load_progress, hmax, hidx]

/-- Witness for C10, discharging the hypotheses at concrete
checkpoints: a Phase-2 checkpoint with 2 stored URLs and index 2,
reloaded with max_posts 5, falls back to Phase-1 defaults; the same
checkpoint reloaded with max_posts 2 resumes fetching at index 2. -/
theorem c10_witness :
    load_progress
        (some ⟨2, [⟨"u1", 1⟩, ⟨"u2", 2⟩], 2, 1, "dogs", 2, none, true⟩) 5 =
      (1, [], false, none) ∧
    load_progress
        (some ⟨2, [⟨"u1", 1⟩, ⟨"u2", 2⟩], 2, 1, "dogs", 2, none, true⟩) 2 =
      (2, [⟨"u1", 1⟩, ⟨"u2", 2⟩], true, none) :=
  ⟨c10_load_progress_recomputes_completeness.2.1
      ⟨2, [⟨"u1", 1⟩, ⟨"u2", 2⟩], 2, 1, "dogs", 2, none, true⟩ 5 rfl
      (by decide),
    c10_load_progress_recomputes_completeness.2.2
      ⟨2, [⟨"u1", 1⟩, ⟨"u2", 2⟩], 2, 1, "dogs", 2, none, true⟩ 2
      (by decide) (by decide)⟩

/-! ## Claim C9 -/

/-- Counterexample to C9: a page whose pre content already has the
expected structured-data shape but which also shows a visible element
matching a captcha selector.  The claim's ordering (shape short-circuit
first) would report no challenge, as challengeDetectedSpecOrder shows;
the code scans the selectors first and blocks. -/
theorem c9_counterexample :
    hasDataShape "title author selftext" = true ∧
    challengeDetected ⟨true, some "title author selftext", some "ok"⟩ = true ∧
    challengeDetectedSpecOrder
      ⟨true, some "title author selftext", some "ok"⟩ = false := by
  decide

/-- C9 amended: the challenge check applies its heuristics in the order
the code fixes: (1) any visible match of the captcha selector set blocks
at once, before the structured-data shape is consulted; (2) only when no
selector matched, a pre content matching the expected shape
short-circuits with no challenge; (3) only otherwise is the visible body
text scanned for the keyword set, any hit blocking the pipeline; and
(4) when no selector matched and the page has no pre element at all,
the AttributeError aborts the whole check with no block. -/
theorem c9_amended_detection_order :
    (∀ (pre : Option String) (body : Option String),
      challengeDetected ⟨true, pre, body⟩ = true) ∧
    (∀ (js : String) (body : Option String), hasDataShape js = true →
      challengeDetected ⟨false, some js, body⟩ = false) ∧
    (∀ (js bt : String), hasDataShape js = false → bt ≠ "" →
      challengeDetected ⟨false, some js, some bt⟩ = keywordHit bt) ∧
    (∀ (body : Option String),
      challengeDetected ⟨false, none, body⟩ = false) := by
  refine ⟨?_, ?_, ?_, ?_⟩
  · intro pre body
    simp [challengeDetected]
  · intro js body h
    simp [challengeDetected, h]
  · intro js bt h hbt
    simp [challengeDetected, h, hbt]
  · intro body
    simp [challengeDetected]

/-- Witness for C9 amended at concrete pages: a good JSON page with a
scary body text is not blocked once no selector matches, and a
shape-less page whose body mentions login is blocked by the keyword
scan. -/
theorem c9_amended_witness :
    challengeDetected
      ⟨false, some "title author selftext", some "login"⟩ = false ∧
    challengeDetected ⟨false, some "oops", some "please login"⟩ =
      keywordHit "please login" :=
  ⟨c9_amended_detection_order.2.1 "title author selftext" (some "login")
      (by decide),
    c9_amended_detection_order.2.2.1 "oops" "please login" (by decide)
      (by decide)⟩

/-! ## Claim C8 -/

mutual
/-- Every comment produced by parseComment is well-counted at every
node: its stored reply_count equals the number of parsed children. -/
theorem parseComment_good : ∀ (n : CNode) (c : Comment),
    parseComment n = some c → GoodTree c
  | .mk kind author body score created (RField.listing f), c, h => by
    rw [parseComment] at h
    split at h
    · exact absurd h (by simp)
    · simp only [Option.some.injEq] at h
      subst h
      refine GoodTree.node _ _ _ _ _ _ rfl ?_
      intro d hd
      rw [repliesChildren] at hd
      exact parseForest_good f d hd
  | .mk kind author body score created RField.absent, c, h => by
    rw [parseComment] at h
    split at h
    · exact absurd h (by simp)
    · simp only [Option.some.injEq] at h
      subst h
      refine GoodTree.node _ _ _ _ _ _ rfl ?_
      intro d hd
      rw [repliesChildren] at hd
      exact absurd hd (by simp)
  | .mk kind author body score created RField.nonDict, c, h => by
    rw [parseComment] at h
    split at h
    · exact absurd h (by simp)
    · simp only [Option.some.injEq] at h
      subst h
      refine GoodTree.node _ _ _ _ _ _ rfl ?_
      intro d hd
      rw [repliesChildren] at hd
      exact absurd hd (by simp)

/-- Every comment in the parse of a forest is well-counted. -/
theorem parseForest_good : ∀ (f : CForest) (c : Comment),
    c ∈ parseForest f → GoodTree c
  | .nil, c, h => by
    rw [parseForest] at h
    exact absurd h (by simp)
  | .cons hd tl, c, h => by
    rw [parseForest] at h
    cases hp : parseComment hd with
    | none =>
      rw [hp] at h
      exact parseForest_good tl c h
    | some d =>
      rw [hp] at h
      rcases List.mem_cons.mp h with h1 | h2
      · exact h1 ▸ parseComment_good hd d hp
      · exact parseForest_good tl c h2
end

/-- C8: comment-tree reconstruction by _parse_comment.
(1) A node tagged kind more yields no parsed comment, at any position;
(2) such a placeholder inside a forest is dropped from the parsed reply
list, so it cannot count toward any reply_count; (3) when the replies
field is absent or not a dict the recursion terminates at once with an
empty reply list; (4) at every node of any parsed tree the stored
reply_count equals exactly the number of its parsed children. -/
theorem c8_parse_comment_tree :
    (∀ (author body : Option String) (score : Option Int)
      (created : Option Nat) (r : RField),
      parseComment (.mk (some "more") author body score created r) = none) ∧
    (∀ (f : CForest) (author body : Option String) (score : Option Int)
      (created : Option Nat) (r : RField),
      parseForest
          (.cons (.mk (some "more") author body score created r) f) =
        parseForest f) ∧
    (∀ (kind author body : Option String) (score : Option Int)
      (created : Option Nat), kind ≠ some "more" →
      (parseComment (.mk kind author body score created .absent)).map
          Comment.replies = some [] ∧
      (parseComment (.mk kind author body score created .nonDict)).map
          Comment.replies = some []) ∧
    (∀ (n : CNode) (c : Comment), parseComment n = some c → GoodTree c) := by
  refine ⟨?_, ?_, ?_, parseComment_good⟩
  · intro author body score created r
    rw [parseComment]
    simp
  · intro f author body score created r
    rw [parseForest]
    simp [parseComment]
  · intro kind author body score created h
    constructor
    · rw [parseComment]
      simp [h, Comment.replies, repliesChildren]
    · rw [parseComment]
      simp [h, Comment.replies, repliesChildren]

/-- Witness for C8 on the spec's fixture shape: a root comment whose
reply forest holds one real child and one more placeholder, the child
itself holding one real reply and one more placeholder at depth 2.  The
parse drops both placeholders, reply_count is 1 at the root and at the
child and 0 at the leaf, and the resulting tree is well-counted. -/
theorem c8_witness :
    parseComment
        (.mk (some "t1") (some "alice") (some "hi") (some 5) (some 100)
          (.listing (.cons
            (.mk (some "t1") (some "carol") (some "child") (some 3)
              (some 300)
              (.listing (.cons
                (.mk (some "t1") (some "bob") (some "reply") (some 2)
                  (some 200) .absent)
                (.cons (.mk (some "more") none none none none .absent)
                  .nil))))
            (.cons (.mk (some "more") none none none none .absent)
              .nil)))) =
      some (.mk "alice" "hi" 5 (.formatted 100)
        [.mk "carol" "child" 3 (.formatted 300)
          [.mk "bob" "reply" 2 (.formatted 200) [] 0] 1] 1) ∧
    GoodTree (.mk "alice" "hi" 5 (.formatted 100)
      [.mk "carol" "child" 3 (.formatted 300)
        [.mk "bob" "reply" 2 (.formatted 200) [] 0] 1] 1) := by
  have h : parseComment
      (.mk (some "t1") (some "alice") (some "hi") (some 5) (some 100)
        (.listing (.cons
          (.mk (some "t1") (some "carol") (some "child") (some 3)
            (some 300)
            (.listing (.cons
              (.mk (some "t1") (some "bob") (some "reply") (some 2)
                (some 200) .absent)
              (.cons (.mk (some "more") none none none none .absent)
                .nil))))
          (.cons (.mk (some "more") none none none none .absent)
            .nil)))) =
      some (.mk "alice" "hi" 5 (.formatted 100)
        [.mk "carol" "child" 3 (.formatted 300)
          [.mk "bob" "reply" 2 (.formatted 200) [] 0] 1] 1) := by
    rfl
  exact ⟨h, c8_parse_comment_tree.2.2.2 _ _ h⟩

/-! ## Claim C7 -/

/-- C7: consecutive-failure ceilings of collect_post_urls.  Starting
below the target with the error counter at 0: (1) three consecutive
HTTP non-200 responses abort Phase 1, returning the current partial
list (truncated to the target count) regardless of any later script —
the model is a total function, so nothing is raised; (2) five
consecutive timeouts do the same, as do (3) five consecutive parse
errors; (4) a successful nonempty page resets the counter to zero,
whatever it was; (5) the returned list never exceeds the target
count. -/
theorem c7_failure_ceiling_aborts_cleanly :
    (∀ (max_posts : Nat) (st : List UrlEntry × List String)
      (script : List PageResult), st.1.length < max_posts →
      collect_post_urls_run max_posts st
          (.httpFail :: .httpFail :: .httpFail :: script) = st.1) ∧
    (∀ (max_posts : Nat) (st : List UrlEntry × List String)
      (script : List PageResult), st.1.length < max_posts →
      collect_post_urls_run max_posts st
          (.timeout :: .timeout :: .timeout :: .timeout :: .timeout ::
            script) = st.1) ∧
    (∀ (max_posts : Nat) (st : List UrlEntry × List String)
      (script : List PageResult), st.1.length < max_posts →
      collect_post_urls_run max_posts st
          (.parseError :: .parseError :: .parseError :: .parseError ::
            .parseError :: script) = st.1) ∧
    (∀ (max_posts cf : Nat) (st : List UrlEntry × List String)
      (posts : List ApiPost) (script : List PageResult),
      st.1.length < max_posts → posts ≠ [] →
      collectLoop max_posts st cf (.ok posts :: script) =
        collectLoop max_posts (processPage max_posts st posts) 0 script) ∧
    (∀ (max_posts : Nat) (st : List UrlEntry × List String)
      (script : List PageResult),
      (collect_post_urls_run max_posts st script).length ≤ max_posts) := by
  refine ⟨?_, ?_, ?_, ?_, ?_⟩
  · intro max_posts st script h
    have hn := Nat.not_le.mpr h
    simp [collect_post_urls_run, collectLoop, hn,
      List.take_of_length_le (Nat.le_of_lt h)]
  · intro max_posts st script h
    have hn := Nat.not_le.mpr h
    simp [collect_post_urls_run, collectLoop, hn,
      List.take_of_length_le (Nat.le_of_lt h)]
  · intro max_posts st script h
    have hn := Nat.not_le.mpr h
    simp [collect_post_urls_run, collectLoop, hn,
      List.take_of_length_le (Nat.le_of_lt h)]
  · intro max_posts cf st posts script h hp
    have hn := Nat.not_le.mpr h
    simp [collectLoop, hn, hp]
  · intro max_posts st script
    exact List.length_take_le _ _

/-- Witness for C7 at concrete scripts: an empty starting state with
target 5 survives aborts at the ceilings, and a success page at counter
4 resets the counter to 0. -/
theorem c7_witness :
    collect_post_urls_run 5 ([], [])
        [.httpFail, .httpFail, .httpFail] = [] ∧
    collect_post_urls_run 5 ([], [])
        [.timeout, .timeout, .timeout, .timeout, .timeout] = [] ∧
    collect_post_urls_run 5 ([], [])
        [.parseError, .parseError, .parseError, .parseError,
          .parseError] = [] ∧
    collectLoop 5 ([], []) 4
        [.ok [⟨some "a", some "/comments/a1/", some 7⟩]] =
      collectLoop 5
        (processPage 5 ([], []) [⟨some "a", some "/comments/a1/", some 7⟩])
        0 [] :=
  ⟨c7_failure_ceiling_aborts_cleanly.1 5 ([], []) [] (by decide),
    c7_failure_ceiling_aborts_cleanly.2.1 5 ([], []) [] (by decide),
    c7_failure_ceiling_aborts_cleanly.2.2.1 5 ([], []) [] (by decide),
    c7_failure_ceiling_aborts_cleanly.2.2.2.1 5 4 ([], [])
      [⟨some "a", some "/comments/a1/", some 7⟩] [] (by decide) (by decide)⟩

/-! ## Claim C6 -/

/-- Counterexample to C6: a checkpoint with three URLs and index 3 is on
disk; update_progress_index rewrites it with index 2 and the process
crashes mid-write.  Because the save truncates and rewrites the state
file in place, the disk now holds a partial document, and the next
load_progress returns the fresh-start defaults — it observes neither
the previous checkpoint nor the new one in full. -/
theorem c6_counterexample :
    load_from_disk
        (save_progress_disk
          (.wholeDoc ⟨3, [⟨"u1", 1⟩, ⟨"u2", 2⟩, ⟨"u3", 3⟩], 3, 2, "dogs",
            3, none, true⟩)
          (update_progress_index
            ⟨3, [⟨"u1", 1⟩, ⟨"u2", 2⟩, ⟨"u3", 3⟩], 3, 2, "dogs", 3, none,
              true⟩ 2 2)
          true) 3 = (1, [], false, none) ∧
    load_from_disk
        (.wholeDoc ⟨3, [⟨"u1", 1⟩, ⟨"u2", 2⟩, ⟨"u3", 3⟩], 3, 2, "dogs", 3,
          none, true⟩) 3 ≠ (1, [], false, none) ∧
    load_from_disk
        (.wholeDoc (update_progress_index
          ⟨3, [⟨"u1", 1⟩, ⟨"u2", 2⟩, ⟨"u3", 3⟩], 3, 2, "dogs", 3, none,
            true⟩ 2 2)) 3 ≠ (1, [], false, none) := by
  decide

/-- C6 amended: the checkpoint save is not atomic — save_progress and
update_progress_index truncate and rewrite the state file in place with
no temp-file-and-rename step, so a crash mid-write leaves a partial
document and the previous checkpoint is lost; what does hold is that a
partial document is never surfaced as a successfully loaded checkpoint:
load_progress maps any unparseable state file to the fresh-start
defaults, and an uninterrupted save is loaded back in full. -/
theorem c6_amended_save_not_atomic :
    (∀ (prev : DiskFile) (d : StateData) (max_posts : Nat),
      load_from_disk (save_progress_disk prev d true) max_posts =
        (1, [], false, none)) ∧
    (∀ (prev : DiskFile) (d : StateData) (max_posts : Nat),
      load_from_disk (save_progress_disk prev d false) max_posts =
        load_progress (some d) max_posts) ∧
    (∀ (d : StateData) (max_posts : Nat),
      load_from_disk (.partialDoc d) max_posts = (1, [], false, none)) := by
  refine ⟨?_, ?_, ?_⟩
  · intro prev d max_posts
    simp [save_progress_disk, load_from_disk]
  · intro prev d max_posts
    simp [save_progress_disk, load_from_disk]
  · intro d max_posts
    simp [load_from_disk]

/-! ## Claim C5 -/

/-- Counterexample to C5: with one pending record, a failing
output-file write makes save_data return normally — raised is false, so
no error is surfaced to the caller and the crawl loop goes on; likewise
save_progress on a failing write, and update_progress_index both on a
failing write and on a missing state file, return normally.  Every
storage failure is logged and swallowed, not fatal. -/
theorem c5_counterexample :
    (save_data_run 1 5 false true true 0).raised = false ∧
    (save_progress_run false
      (save_progress "dogs" 10 0 1 [] false none)).1 = false ∧
    (update_progress_index_run true false 5).1 = false ∧
    (update_progress_index_run false true 5).1 = false := by
  decide

/-- C5 amended: storage write failures are caught and logged inside
save_progress, update_progress_index and save_data, which all return
normally, so the run continues; what failure handling does hold is
containment: on an output-file write failure save_data appends nothing,
leaves the pending batch in memory for the next flush, does not bump
the crawled total and does not advance the checkpoint index; on a
checkpoint write failure after a successful append, the data is
appended and the batch cleared but the index write is dropped. -/
theorem c5_amended_write_failures_swallowed :
    (∀ (wOk : Bool) (doc : StateData), (save_progress_run wOk doc).1 = false) ∧
    (∀ (sfe swo : Bool) (idx : Nat),
      (update_progress_index_run sfe swo idx).1 = false) ∧
    (∀ (pending idx tc : Nat) (sfe swo : Bool), pending ≠ 0 →
      save_data_run pending idx false sfe swo tc =
        ⟨false, 0, none, pending, tc⟩) ∧
    (∀ (pending idx tc : Nat), pending ≠ 0 →
      save_data_run pending idx true true false tc =
        ⟨false, pending, none, 0, tc + pending⟩) := by
  refine ⟨?_, ?_, ?_, ?_⟩
  · intro wOk doc
    cases wOk <;> simp [save_progress_run]
  · intro sfe swo idx
    cases sfe <;> cases swo <;> simp [update_progress_index_run]
  · intro pending idx tc sfe swo h
    simp [save_data_run, h]
  · intro pending idx tc h
    simp [save_data_run, update_progress_index_run, h]

/-- Witness for C5 amended with a three-record pending batch: a failed
output write retains the batch and advances nothing; a failed
checkpoint write after a successful append clears the batch but writes
no index. -/
theorem c5_amended_witness :
    save_data_run 3 7 false true true 10 = ⟨false, 0, none, 3, 10⟩ ∧
    save_data_run 3 7 true true false 10 = ⟨false, 3, none, 0, 13⟩ :=
  ⟨c5_amended_write_failures_swallowed.2.2.1 3 7 10 true true (by decide),
    c5_amended_write_failures_swallowed.2.2.2 3 7 10 (by decide)⟩

/-! ## Claim C3 -/

/-- One permalink-consistent item preserves the collector invariant:
the dedup list is exactly the identifier projection of the candidates
and has no duplicates. -/
theorem processPost_inv (max_posts : Nat) (st : List UrlEntry × List String)
    (p : ApiPost) (hwf : wfPost p = true)
    (h1 : st.2 = idProjection st.1) (h2 : st.2.Nodup) :
    (processPost max_posts st p).2 = idProjection (processPost max_posts st p).1 ∧
      (processPost max_posts st p).2.Nodup := by
  rcases p with ⟨pid, pl, ts⟩
  rcases pid with _ | pid
  · exact ⟨h1, h2⟩
  rcases pl with _ | pl
  · exact ⟨h1, h2⟩
  rcases ts with _ | ts
  · exact ⟨h1, h2⟩
  have hex : extract_post_id ("https://www.reddit.com" ++ pl) = some pid := by
    simpa [wfPost] using hwf
  rw [processPost]
  split
  · exact ⟨h1, h2⟩
  split
  · exact ⟨h1, h2⟩
  split
  · exact ⟨h1, h2⟩
  next hmem =>
    constructor
    · simp [idProjection, List.filterMap_append, hex, h1]
    · simp [List.nodup_append, h2, hmem]

/-- One permalink-consistent page preserves the collector invariant. -/
theorem processPage_inv (max_posts : Nat) (pg : List ApiPost) :
    ∀ (st : List UrlEntry × List String), (∀ p ∈ pg, wfPost p = true) →
    st.2 = idProjection st.1 → st.2.Nodup →
    (processPage max_posts st pg).2 =
        idProjection (processPage max_posts st pg).1 ∧
      (processPage max_posts st pg).2.Nodup := by
  induction pg with
  | nil => intro st _ h1 h2; exact ⟨h1, h2⟩
  | cons p ps ihp =>
    intro st hpg h1 h2
    have hp : wfPost p = true := hpg p (List.mem_cons_self p ps)
    have hps : ∀ q ∈ ps, wfPost q = true :=
      fun q hq => hpg q (List.mem_cons_of_mem p hq)
    have hstep := processPost_inv max_posts st p hp h1 h2
    simpa [processPage] using
      ihp (processPost max_posts st p) hps hstep.1 hstep.2

/-- Folding any sequence of permalink-consistent pages preserves the
collector invariant. -/
theorem collectPages_inv (max_posts : Nat) (pages : List (List ApiPost)) :
    ∀ (st : List UrlEntry × List String),
    (∀ pg ∈ pages, ∀ p ∈ pg, wfPost p = true) →
    st.2 = idProjection st.1 → st.2.Nodup →
    (collectPages max_posts st pages).2 =
        idProjection (collectPages max_posts st pages).1 ∧
      (collectPages max_posts st pages).2.Nodup := by
  induction pages with
  | nil => intro st _ h1 h2; exact ⟨h1, h2⟩
  | cons pg rest ih =>
    intro st hwf h1 h2
    have hpg : ∀ p ∈ pg, wfPost p = true := hwf pg (List.mem_cons_self pg rest)
    have hrest : ∀ q ∈ rest, ∀ p ∈ q, wfPost p = true :=
      fun q hq => hwf q (List.mem_cons_of_mem pg hq)
    have hstep := processPage_inv max_posts pg st hpg h1 h2
    simpa [collectPages, processPage] using
      ih (processPage max_posts st pg) hrest hstep.1 hstep.2

/-- Counterexample to C3: two API items with distinct ids a and b but
the same permalink.  Both pass the id-based dedup, so the candidates
list carries the identifier x twice; the in-memory dedup set holds
{a, b} while the copy persisted by save_url_collection_progress,
re-derived from the URLs, holds {x} — the two cannot both equal the
identifier set of the candidates. -/
theorem c3_counterexample :
    (collectPages 10 ([], [])
        [[⟨some "a", some "/comments/x/", some 5⟩,
          ⟨some "b", some "/comments/x/", some 6⟩]]).2 = ["a", "b"] ∧
    idProjection (collectPages 10 ([], [])
        [[⟨some "a", some "/comments/x/", some 5⟩,
          ⟨some "b", some "/comments/x/", some 6⟩]]).1 = ["x", "x"] ∧
    persistedIds (collectPages 10 ([], [])
        [[⟨some "a", some "/comments/x/", some 5⟩,
          ⟨some "b", some "/comments/x/", some 6⟩]]).1 = ["x"] ∧
    ¬ (idProjection (collectPages 10 ([], [])
        [[⟨some "a", some "/comments/x/", some 5⟩,
          ⟨some "b", some "/comments/x/", some 6⟩]]).1).Nodup := by
  decide

/-- C3 amended: when every API item is permalink-consistent (the URL
built from its permalink re-derives, via _extract_post_id, exactly the
id the item carries — the situation for all real Reddit data), the
collector invariant holds after every mutation: the in-memory dedup set
is exactly the identifier projection of the candidates, the candidates
contain each identifier exactly once, and the persisted copy of the set
written by save_url_collection_progress has the same members as the
in-memory set. -/
theorem c3_amended_dedup_invariant :
    ∀ (max_posts : Nat) (pages : List (List ApiPost))
      (st : List UrlEntry × List String),
      (∀ pg ∈ pages, ∀ p ∈ pg, wfPost p = true) →
      st.2 = idProjection st.1 → st.2.Nodup →
      (collectPages max_posts st pages).2 =
          idProjection (collectPages max_posts st pages).1 ∧
        (idProjection (collectPages max_posts st pages).1).Nodup ∧
        ∀ x, x ∈ persistedIds (collectPages max_posts st pages).1 ↔
          x ∈ (collectPages max_posts st pages).2 := by
  intro max_posts pages st hwf h1 h2
  obtain ⟨ha, hb⟩ := collectPages_inv max_posts pages st hwf h1 h2
  refine ⟨ha, ha ▸ hb, ?_⟩
  intro x
  have hp : persistedIds (collectPages max_posts st pages).1 =
      (idProjection (collectPages max_posts st pages).1).dedup := rfl
  rw [hp, List.mem_dedup, ← ha]

/-- Witness for C3 on a concrete two-item page whose items are
permalink-consistent: the invariant conclusions hold for the resulting
state, sampled at identifier a1. -/
theorem c3_witness :
    (collectPages 3 ([], [])
        [[⟨some "a1", some "/comments/a1/", some 5⟩,
          ⟨some "b2", some "/comments/b2/", some 6⟩]]).2 =
      idProjection (collectPages 3 ([], [])
        [[⟨some "a1", some "/comments/a1/", some 5⟩,
          ⟨some "b2", some "/comments/b2/", some 6⟩]]).1 ∧
    ("a1" ∈ persistedIds (collectPages 3 ([], [])
        [[⟨some "a1", some "/comments/a1/", some 5⟩,
          ⟨some "b2", some "/comments/b2/", some 6⟩]]).1 ↔
      "a1" ∈ (collectPages 3 ([], [])
        [[⟨some "a1", some "/comments/a1/", some 5⟩,
          ⟨some "b2", some "/comments/b2/", some 6⟩]]).2) :=
  ⟨(c3_amended_dedup_invariant 3
      [[⟨some "a1", some "/comments/a1/", some 5⟩,
        ⟨some "b2", some "/comments/b2/", some 6⟩]] ([], [])
      (by decide) rfl (by decide)).1,
    (c3_amended_dedup_invariant 3
      [[⟨some "a1", some "/comments/a1/", some 5⟩,
        ⟨some "b2", some "/comments/b2/", some 6⟩]] ([], [])
      (by decide) rfl (by decide)).2.2 "a1"⟩

/-! ## Claim C4 -/

/-- Membership in the foldl underlying seedIds: an element is collected
exactly when it is in the accumulator or in the identifier projection
of the remaining URLs. -/
theorem seedIds_aux (x : String) : ∀ (urls : List UrlEntry) (acc : List String),
    x ∈ urls.foldl
        (fun s u =>
          match extract_post_id u.url with
          | some i => if i ∈ s then s else s ++ [i]
          | none => s) acc ↔ x ∈ acc ∨ x ∈ idProjection urls := by
  intro urls
  induction urls with
  | nil => intro acc; simp [idProjection]
  | cons u us ih =>
    intro acc
    rw [List.foldl_cons]
    cases hext : extract_post_id u.url with
    | none =>
      simp only [hext]
      rw [ih]
      simp [idProjection, List.filterMap_cons, hext]
    | some i =>
      simp only [hext]
      by_cases hmem : i ∈ acc
      · rw [if_pos hmem, ih]
        simp only [idProjection, List.filterMap_cons, hext, List.mem_cons]
        constructor
        · rintro (h | h)
          · exact Or.inl h
          · exact Or.inr (Or.inr h)
        · rintro (h | h | h)
          · exact Or.inl h
          · exact Or.inl (h ▸ hmem)
          · exact Or.inr h
      · rw [if_neg hmem, ih]
        simp only [idProjection, List.filterMap_cons, hext, List.mem_cons,
          List.mem_append, List.mem_singleton]
        tauto

/-- Membership in seedIds is membership in the identifier projection. -/
theorem mem_seedIds (urls : List UrlEntry) (x : String) :
    x ∈ seedIds urls ↔ x ∈ idProjection urls := by
  have := seedIds_aux x urls []
  simpa [seedIds] using this

/-- Counterexample to C4: the same upstream data — one page with an
item of id a and permalink /comments/x/, then one page with the same id
a but permalink /comments/y/.  One uninterrupted run remembers the API
id a and skips the second item, ending with one candidate; a run split
after the first page restores the dedup set from the checkpoint, which
holds the URL-derived identifier x instead of a, so the second item is
appended and the final sequences differ. -/
theorem c4_counterexample :
    (collectPages 10
        (resumeStateOf (collectPages 10 ([], [])
          [[⟨some "a", some "/comments/x/", some 5⟩]]).1)
        [[⟨some "a", some "/comments/y/", some 6⟩]]).1.length = 2 ∧
    (collectPages 10 ([], [])
        ([[⟨some "a", some "/comments/x/", some 5⟩]] ++
          [[⟨some "a", some "/comments/y/", some 6⟩]])).1.length = 1 := by
  decide

/-- C4 amended: (1) when every API item is permalink-consistent,
collecting over any page sequence in one uninterrupted run yields
exactly the same collector state, candidate sequence included, as
collecting it split across two runs with a checkpoint save and restore
in between (resumeStateOf rebuilding the dedup set from the persisted
collected_post_ids); (2) unconditionally, the id set restored from the
checkpoint's collected_post_ids and the set recomputed by re-deriving
identifiers from the already-collected URLs via _extract_post_id have
the same members, both being the identifier projection of the URLs. -/
theorem c4_amended_resume_equivalence :
    (∀ (max_posts : Nat) (pages1 pages2 : List (List ApiPost)),
      (∀ pg ∈ pages1 ++ pages2, ∀ p ∈ pg, wfPost p = true) →
      collectPages max_posts
          (resumeStateOf (collectPages max_posts ([], []) pages1).1)
          pages2 =
        collectPages max_posts ([], []) (pages1 ++ pages2)) ∧
    (∀ (urls : List UrlEntry) (x : String),
      x ∈ persistedIds urls ↔ x ∈ seedIds urls) := by
  constructor
  · intro max_posts pages1 pages2 hwf
    have hwf1 : ∀ pg ∈ pages1, ∀ p ∈ pg, wfPost p = true :=
      fun pg hpg => hwf pg (List.mem_append_left pages2 hpg)
    obtain ⟨ha, hb⟩ :=
      collectPages_inv max_posts pages1 ([], []) hwf1 rfl List.nodup_nil
    have hresume :
        resumeStateOf (collectPages max_posts ([], []) pages1).1 =
          collectPages max_posts ([], []) pages1 := by
      have hps : persistedIds (collectPages max_posts ([], []) pages1).1 =
          (collectPages max_posts ([], []) pages1).2 := by
        have hp : persistedIds (collectPages max_posts ([], []) pages1).1 =
            (idProjection (collectPages max_posts ([], []) pages1).1).dedup :=
          rfl
        rw [hp, List.dedup_eq_self.mpr (ha ▸ hb), ← ha]
      rw [resumeStateOf, hps]
    rw [hresume]
    show List.foldl (processPage max_posts)
        (List.foldl (processPage max_posts) ([], []) pages1) pages2 =
      List.foldl (processPage max_posts) ([], []) (pages1 ++ pages2)
    rw [List.foldl_append]
  · intro urls x
    have hp : persistedIds urls = (idProjection urls).dedup := rfl
    rw [hp, List.mem_dedup, mem_seedIds]

/-- Witness for C4 at concrete permalink-consistent pages: the split
run and the uninterrupted run agree, and on a concrete URL list the
restored and re-derived id sets agree at identifier a1. -/
theorem c4_witness :
    collectPages 5
        (resumeStateOf (collectPages 5 ([], [])
          [[⟨some "a1", some "/comments/a1/", some 9⟩]]).1)
        [[⟨some "b2", some "/comments/b2/", some 8⟩]] =
      collectPages 5 ([], [])
        ([[⟨some "a1", some "/comments/a1/", some 9⟩]] ++
          [[⟨some "b2", some "/comments/b2/", some 8⟩]]) ∧
    ("a1" ∈ persistedIds [⟨"https://www.reddit.com/comments/a1/", 9⟩] ↔
      "a1" ∈ seedIds [⟨"https://www.reddit.com/comments/a1/", 9⟩]) :=
  ⟨c4_amended_resume_equivalence.1 5
      [[⟨some "a1", some "/comments/a1/", some 9⟩]]
      [[⟨some "b2", some "/comments/b2/", some 8⟩]] (by decide),
    c4_amended_resume_equivalence.2
      [⟨"https://www.reddit.com/comments/a1/", 9⟩] "a1"⟩

/-! ## Claims C1 and C2: properties of the Phase-2 loop model -/

/-- Every commit recorded by the loop carries an index at least the
nextCur the loop was entered with, and a nonempty batch. -/
theorem fetchLoopA_saves_bound : ∀ (rs : List Bool) (nc curv p cf : Nat),
    ∀ x ∈ (fetchLoopA nc curv p cf rs).1, nc ≤ x.2 ∧ x.1 ≠ 0 := by
  intro rs
  induction rs with
  | nil =>
    intro nc curv p cf x hx
    simp [fetchLoopA] at hx
  | cons r rest ih =>
    intro nc curv p cf x hx
    cases r with
    | true =>
      simp only [fetchLoopA, if_true] at hx
      by_cases h10 : (p + 1) % 10 = 0
      · rw [if_pos h10] at hx
        rcases List.mem_cons.mp hx with h1 | h2
        · subst h1
          exact ⟨Nat.le_refl nc, Nat.succ_ne_zero p⟩
        · obtain ⟨ha, hb⟩ := ih (nc + 1) nc 0 0 x h2
          exact ⟨Nat.le_of_succ_le ha, hb⟩
      · rw [if_neg h10] at hx
        obtain ⟨ha, hb⟩ := ih (nc + 1) nc (p + 1) 0 x hx
        exact ⟨Nat.le_of_succ_le ha, hb⟩
    | false =>
      simp only [fetchLoopA, Bool.false_eq_true, if_false] at hx
      by_cases hbr : 3 ≤ cf + 1
      · rw [if_pos hbr] at hx
        simp at hx
      · rw [if_neg hbr] at hx
        obtain ⟨ha, hb⟩ := ih (nc + 1) nc p (cf + 1) x hx
        exact ⟨Nat.le_of_succ_le ha, hb⟩

/-- The loop either executes no iteration at all — returning its
pending count and current_index unchanged — or exits with a
current_index of at least the nextCur it was entered with. -/
theorem fetchLoopA_exit_cases : ∀ (rs : List Bool) (nc curv p cf : Nat),
    ((fetchLoopA nc curv p cf rs).2.1 = p ∧
      (fetchLoopA nc curv p cf rs).2.2 = curv) ∨
    nc ≤ (fetchLoopA nc curv p cf rs).2.2 := by
  intro rs
  induction rs with
  | nil =>
    intro nc curv p cf
    simp [fetchLoopA]
  | cons r rest ih =>
    intro nc curv p cf
    cases r with
    | true =>
      simp only [fetchLoopA, if_true]
      by_cases h10 : (p + 1) % 10 = 0
      · rw [if_pos h10]
        rcases ih (nc + 1) nc 0 0 with ⟨_, hc⟩ | hc
        · exact Or.inr hc.ge
        · exact Or.inr (Nat.le_of_succ_le hc)
      · rw [if_neg h10]
        rcases ih (nc + 1) nc (p + 1) 0 with ⟨_, hc⟩ | hc
        · exact Or.inr hc.ge
        · exact Or.inr (Nat.le_of_succ_le hc)
    | false =>
      simp only [fetchLoopA, Bool.false_eq_true, if_false]
      by_cases hbr : 3 ≤ cf + 1
      · rw [if_pos hbr]
        exact Or.inr (Nat.le_refl nc)
      · rw [if_neg hbr]
        rcases ih (nc + 1) nc p (cf + 1) with ⟨_, hc⟩ | hc
        · exact Or.inr hc.ge
        · exact Or.inr (Nat.le_of_succ_le hc)

/-- The commit indices of the loop are strictly increasing, and when
records are still pending at loop exit, the final current_index is
strictly beyond every committed index. -/
theorem fetchLoopA_chain : ∀ (rs : List Bool) (nc curv p cf : Nat),
    List.Chain' (· < ·) (((fetchLoopA nc curv p cf rs).1).map Prod.snd) ∧
    ((fetchLoopA nc curv p cf rs).2.1 ≠ 0 →
      ∀ x ∈ (fetchLoopA nc curv p cf rs).1,
        x.2 < (fetchLoopA nc curv p cf rs).2.2) := by
  intro rs
  induction rs with
  | nil =>
    intro nc curv p cf
    simp [fetchLoopA]
  | cons r rest ih =>
    intro nc curv p cf
    cases r with
    | true =>
      simp only [fetchLoopA, if_true]
      by_cases h10 : (p + 1) % 10 = 0
      · rw [if_pos h10]
        have hq := ih (nc + 1) nc 0 0
        have hlive : (fetchLoopA (nc + 1) nc 0 0 rest).2.1 ≠ 0 →
            nc < (fetchLoopA (nc + 1) nc 0 0 rest).2.2 := by
          intro hne
          rcases fetchLoopA_exit_cases rest (nc + 1) nc 0 0 with ⟨hp0, _⟩ | hc
          · exact absurd hp0 hne
          · exact Nat.lt_of_succ_le hc
        constructor
        · rw [List.map_cons, List.chain'_cons']
          refine ⟨?_, hq.1⟩
          intro y hy
          rcases hh : (fetchLoopA (nc + 1) nc 0 0 rest).1 with _ | ⟨z, zs⟩
          · rw [hh] at hy
            simp at hy
          · rw [hh] at hy
            simp only [List.map_cons, List.head?_cons, Option.mem_def,
              Option.some.injEq] at hy
            have hz := fetchLoopA_saves_bound rest (nc + 1) nc 0 0 z
              (by rw [hh]; exact List.mem_cons_self z zs)
            exact hy ▸ Nat.lt_of_succ_le hz.1
        · intro hne x hx
          rcases List.mem_cons.mp hx with h1 | h2
          · subst h1
            exact hlive hne
          · exact hq.2 hne x h2
      · rw [if_neg h10]
        exact ih (nc + 1) nc (p + 1) 0
    | false =>
      simp only [fetchLoopA, Bool.false_eq_true, if_false]
      by_cases hbr : 3 ≤ cf + 1
      · rw [if_pos hbr]
        simp
      · rw [if_neg hbr]
        exact ih (nc + 1) nc p (cf + 1)

/-- Closed form of the final current_index: it stays at curVar when no
iteration runs, and otherwise equals the index assigned at the last
executed iteration, regardless of which fetches succeeded. -/
theorem fetchLoopA_finalCur : ∀ (rs : List Bool) (nc curv p cf : Nat),
    (fetchLoopA nc curv p cf rs).2.2 =
      if fetchIters cf rs = 0 then curv else nc + (fetchIters cf rs - 1) := by
  intro rs
  induction rs with
  | nil =>
    intro nc curv p cf
    simp [fetchLoopA, fetchIters]
  | cons r rest ih =>
    intro nc curv p cf
    cases r with
    | true =>
      simp only [fetchLoopA, if_true, fetchIters]
      by_cases h10 : (p + 1) % 10 = 0
      · rw [if_pos h10]
        rw [ih (nc + 1) nc 0 0]
        by_cases hz : fetchIters 0 rest = 0
        · simp [hz]
        · rw [if_neg hz, if_neg (by omega)]
          omega
      · rw [if_neg h10]
        rw [ih (nc + 1) nc (p + 1) 0]
        by_cases hz : fetchIters 0 rest = 0
        · simp [hz]
        · rw [if_neg hz, if_neg (by omega)]
          omega
    | false =>
      simp only [fetchLoopA, Bool.false_eq_true, if_false, fetchIters]
      by_cases hbr : 3 ≤ cf + 1
      · rw [if_pos hbr, if_pos hbr]
        simp
      · rw [if_neg hbr, if_neg hbr]
        rw [ih (nc + 1) nc p (cf + 1)]
        by_cases hz : fetchIters (cf + 1) rest = 0
        · simp [hz]
        · rw [if_neg hz, if_neg (by omega)]
          omega

/-- A list of commits with nonempty batches flattens to a trace in
which every index write immediately follows its covering append. -/
theorem pairedTrace_flatMap : ∀ (l : List (Nat × Nat)),
    (∀ x ∈ l, x.1 ≠ 0) →
    PairedTrace (l.flatMap (fun s => [Ev.append s.1 s.2, Ev.writeIdx s.2])) := by
  intro l
  induction l with
  | nil =>
    intro _
    simp only [List.flatMap_nil]
    exact PairedTrace.nil
  | cons s rest ih =>
    intro h
    simp only [List.flatMap_cons, List.cons_append, List.nil_append]
    exact PairedTrace.cons s.1 s.2 _ (h s (List.mem_cons_self s rest))
      (ih (fun x hx => h x (List.mem_cons_of_mem s hx)))

/-- Counterexample to C1: a Phase-2 checkpoint stores
current_post_index 8 with 10 collected URLs (and, as save_progress
wrote it, no url_collection_progress).  A rerun constructed with
max_posts 20 loads it as collection-incomplete, so crawl_posts re-runs
Phase 1 and then writes the checkpoint via save_progress(1, url_list):
the stored index drops from 8 to 1 — an execution path that decreases
the stored index. -/
theorem c1_counterexample :
    (load_progress
        (some ⟨8, List.replicate 10 ⟨"u", 1⟩, 10, 8, "dogs", 10, none,
          true⟩) 20).2.2.1 = false ∧
    (save_progress "dogs" 20 0 1 (List.replicate 12 ⟨"u", 1⟩) false
        none).current_post_index = 1 ∧
    (save_progress "dogs" 20 0 1 (List.replicate 12 ⟨"u", 1⟩) false
        none).current_post_index <
      (⟨8, List.replicate 10 ⟨"u", 1⟩, 10, 8, "dogs", 10, none, true⟩ :
        StateData).current_post_index := by
  decide

/-- C1 amended: within any single run of the Phase-2 fetch loop,
entered at the loaded index start, the sequence of current_post_index
values written to the checkpoint is strictly increasing and never below
start, and every index write is immediately preceded by the successful
output-file append of the nonempty batch it covers (load_progress
itself never writes the state file; but a rerun whose max_posts exceeds
the stored URL count re-enters Phase 1 and rewrites the index to 1, as
the counterexample shows). -/
theorem c1_amended_phase2_index_monotone :
    ∀ (start : Nat) (results : List Bool),
      List.Chain' (· < ·) (phase2Writes start results) ∧
      (∀ i ∈ phase2Writes start results, start ≤ i) ∧
      PairedTrace (phase2Events start results) := by
  intro start results
  have hsb := fetchLoopA_saves_bound results start start 0 0
  have hch := fetchLoopA_chain results start start 0 0
  have hex := fetchLoopA_exit_cases results start start 0 0
  refine ⟨?_, ?_, ?_⟩
  · rw [phase2Writes, phase2Saves]
    by_cases hz : (fetchLoopA start start 0 0 results).2.1 = 0
    · rw [if_pos hz]
      simpa using hch.1
    · rw [if_neg hz]
      rw [List.map_append, List.chain'_append]
      refine ⟨hch.1, by simp, ?_⟩
      intro x hx y hy
      simp only [List.map_cons, List.map_nil, List.head?_cons,
        Option.mem_def, Option.some.injEq] at hy
      obtain ⟨hne, hlast⟩ := List.mem_getLast?_eq_getLast hx
      have hxmem : x ∈ ((fetchLoopA start start 0 0 results).1).map Prod.snd :=
        hlast ▸ List.getLast_mem hne
      obtain ⟨z, hz1, hz2⟩ := List.mem_map.mp hxmem
      subst hy
      exact hz2 ▸ hch.2 hz z hz1
  · intro i hi
    rw [phase2Writes, phase2Saves] at hi
    rw [List.map_append, List.mem_append] at hi
    rcases hi with hi | hi
    · obtain ⟨z, hz1, hz2⟩ := List.mem_map.mp hi
      exact hz2 ▸ (hsb z hz1).1
    · by_cases hz : (fetchLoopA start start 0 0 results).2.1 = 0
      · rw [if_pos hz] at hi
        simp at hi
      · rw [if_neg hz] at hi
        simp only [List.map_cons, List.map_nil, List.mem_singleton] at hi
        subst hi
        rcases hex with ⟨hp0, _⟩ | hc
        · exact absurd hp0 hz
        · exact hc
  · rw [phase2Events]
    refine pairedTrace_flatMap _ ?_
    intro x hx
    rw [phase2Saves, List.mem_append] at hx
    rcases hx with hx | hx
    · exact (hsb x hx).2
    · by_cases hz : (fetchLoopA start start 0 0 results).2.1 = 0
      · rw [if_pos hz] at hx
        simp at hx
      · rw [if_neg hz] at hx
        simp only [List.mem_singleton] at hx
        subst hx
        exact hz

/-- Witness for C1 amended on a concrete resumed run: loaded index 8
with ten straight successful fetches commits one batch at index 17; the
write sequence is a strict chain, the sampled write 17 is at least the
loaded index, and the event trace pairs the write with its append. -/
theorem c1_amended_phase2_witness :
    List.Chain' (· < ·) (phase2Writes 8 (List.replicate 10 true)) ∧
    (8 : Nat) ≤ 17 ∧
    PairedTrace (phase2Events 8 (List.replicate 10 true)) :=
  ⟨(c1_amended_phase2_index_monotone 8 (List.replicate 10 true)).1,
    (c1_amended_phase2_index_monotone 8 (List.replicate 10 true)).2.1 17
      (by decide),
    (c1_amended_phase2_index_monotone 8 (List.replicate 10 true)).2.2⟩

/-- Counterexample to C2: one candidate whose single fetch fails.  The
loop still ends with current_index equal to the list length, so
crawl_posts counts the run as completed normally and removes the state
file, although no batch was ever appended — the candidate was not
successfully fetched and emitted. -/
theorem c2_counterexample :
    removesStateFile 1 1 [false] = true ∧ phase2Saves 1 [false] = [] := by
  decide

/-- C2 amended: the state file is removed exactly when the Phase-2 loop
has iterated up to the last candidate — final current_index at least
len(url_list) — regardless of whether the individual fetches succeeded;
equivalently, removal depends only on how many iterations ran.  In
particular, a run whose consecutive-failure ceiling trips strictly
before the last candidate leaves the checkpoint in place, while
failures at (or skipped candidates before) the final index still
delete it. -/
theorem c2_amended_removal_is_positional :
    ∀ (start total_posts : Nat) (results : List Bool),
      (removesStateFile start total_posts results = true ↔
        total_posts ≤
          (if fetchIters 0 results = 0 then start
            else start + (fetchIters 0 results - 1))) ∧
      (fetchIters 0 results ≠ 0 →
        start + (fetchIters 0 results - 1) < total_posts →
        removesStateFile start total_posts results = false) := by
  intro start total_posts results
  have hfc := fetchLoopA_finalCur results start start 0 0
  constructor
  · rw [removesStateFile, phase2FinalCur, hfc]
    simp
  · intro hne hlt
    rw [removesStateFile, phase2FinalCur, hfc, if_neg hne]
    simp only [decide_eq_false_iff_not]
    omega

/-- Witness for C2 amended: a three-candidate run starting at index 1
whose first fetch fails and then breaks nothing more (the script ends
after one iteration): one iteration ran, the final index 1 is below 3,
and the state file survives. -/
theorem c2_amended_witness :
    removesStateFile 1 3 [false] = false :=
  (c2_amended_removal_is_positional 1 3 [false]).2 (by decide) (by decide)

end Crawler
